import Mathlib

/-!
Shallow embedding of the Allma frontend client engine
(`allma-frontend/src/services/api.js`, `demoApi.js`, `hooks.js`):
the Transport layer (`ApiService.request`), the simulated responder
(`DemoApiService`), the client-facade operations of `ApiService`, and the
stateful hooks `useHealthCheck` and `useDocuments` (upload paths).

JS promises are modelled by explicit outcomes: an environment value of type
`Except ApiError r` stands for the settled result of the corresponding
`fetch`/`request` call; `Date.now()` and load-time timestamps are explicit
parameters. JS string indexing/slicing on ASCII prefixes is modelled on
`String.data` (the character list), which agrees with the UTF-16 slicing the
source performs because all prefixes involved are ASCII.
-/

namespace Allma

/-- JS `x || default` for an optional string field: both an absent field and
the empty string are falsy. -/
def jsOr : Option String → String → String
  | some s, d => if s = "" then d else s
  | none, d => d

/-- `ApiError` from api.js: carries `message`, numeric `status`
(0 for network-level failures) and optional `code`. -/
structure ApiError where
  message : String
  status : Nat
  code : Option String
deriving DecidableEq

/-- A JavaScript exception as seen by a `catch` block: either an `ApiError`
instance or any other raw exception (TypeError from `fetch`, SyntaxError from
`response.json()`, ...) identified by its `message`. -/
inductive JsException where
  | raw (message : String)
  | api (e : ApiError)
deriving DecidableEq

/-- The `message`/`code` view of a parsed JSON error body
(`error.message`, `error.code` in api.js; either may be absent). -/
structure ErrBody where
  message : Option String
  code : Option String
deriving DecidableEq

/-- Settled outcome of the `fetch` inside `ApiService.request`:
either `fetch` itself threw (network-level failure), or a response arrived
with an HTTP status and a body whose single JSON parse either fails (with the
parser-exception message) or yields the body, viewed both as an error body
and as the typed payload `α`. -/
inductive FetchOutcome (α : Type) where
  | fetchThrow (message : String)
  | resp (status : Nat) (body : Except String (ErrBody × α))

/-- `response.ok`: HTTP status in the 2xx range. -/
def respOk (status : Nat) : Bool := 200 ≤ status && status < 300

/-- The body of the `try` block of `ApiService.request` (api.js lines 47-64):
non-2xx responses throw an `ApiError` built from the error body when it
parses (`.catch(() => ({}))` yields the empty body) with the generic
`"HTTP <code>"` message when no truthy `message` field is present; a 2xx
response returns the parsed JSON, and a JSON parse failure propagates as a
raw exception. -/
def requestInner {α : Type} (env : FetchOutcome α) : Except JsException (ErrBody × α) :=
  match env with
  | .fetchThrow m => .error (.raw m)
  | .resp status body =>
    if respOk status then
      match body with
      | .ok v => .ok v
      | .error m => .error (.raw m)
    else
      let eb : ErrBody := match body with
        | .ok (eb, _) => eb
        | .error _ => ⟨none, none⟩
      .error (.api ⟨jsOr eb.message ("HTTP " ++ toString status), status, eb.code⟩)

/-- `ApiService.request` (api.js lines 36-75): the `catch` block rethrows
`ApiError` instances unchanged and wraps every other exception into
`ApiError(error.message || "Network error", 0, "NETWORK_ERROR")`. -/
def request {α : Type} (env : FetchOutcome α) : Except ApiError (ErrBody × α) :=
  match requestInner env with
  | .ok v => .ok v
  | .error (.api e) => .error e
  | .error (.raw m) => .error ⟨if m = "" then "Network error" else m, 0, some "NETWORK_ERROR"⟩

/-- `true` exactly when the outcome is an error; models "the call rejected". -/
def exceptErr {ε α : Type} : Except ε α → Bool
  | .error _ => true
  | .ok _ => false

/-- The fixed ordered list `DEMO_RESPONSES` of demoApi.js. -/
def DEMO_RESPONSES : List String :=
  [ "Hello! I\x27m Allma AI, a RAG-powered assistant. This is a demo mode showcasing the application\x27s capabilities. In production, I connect to local LLMs via Ollama for private, offline AI conversations.",
    "Great question! This application uses **Retrieval-Augmented Generation (RAG)** to enhance AI responses with your own documents. Key features:\n\n- 🔒 **Privacy-first**: All processing happens locally\n- 📚 **Document ingestion**: Upload PDFs, docs, and text files\n- 🧠 **Vector search**: ChromaDB for semantic retrieval\n- ⚡ **Fast inference**: Ollama with optimized models",
    "The tech stack includes:\n\n**Frontend:**\n- React 18 + Vite\n- TailwindCSS\n- Responsive design\n\n**Backend:**\n- FastAPI (Python)\n- ChromaDB vector store\n- Ollama LLM integration\n\n**Deployment:**\n- Docker & Kubernetes ready\n- CI/CD with GitHub Actions",
    "I can help with various tasks:\n\n1. **Code assistance** - Explain, debug, and generate code\n2. **Document Q&A** - Answer questions about uploaded documents\n3. **Research** - Summarize and analyze information\n4. **Writing** - Draft emails, reports, and content\n\nWhat would you like to explore?",
    "This demo showcases the UI and interaction patterns. In the full version:\n\n- Connect to **Ollama** for local LLM inference\n- Use **Groq API** for cloud-based fast inference\n- Ingest documents for **RAG-powered** responses\n- Maintain **conversation history** with context" ]

/-- A retrieval hit `{document, relevance, snippet}` as carried in chat
responses and messages. -/
structure SourceHit where
  document : String
  relevance : Rat
  snippet : String
deriving DecidableEq

/-- Token usage `{prompt_tokens, completion_tokens}`. -/
structure Usage where
  prompt_tokens : Nat
  completion_tokens : Nat
deriving DecidableEq

/-- The message object `ApiService.sendMessage` resolves with. The demo
responder additionally sets `isDemo`; the real path leaves it absent
(modelled `false`). -/
structure Message where
  id : String
  conversationId : String
  content : String
  model : String
  sources : List SourceHit
  usage : Option Usage
  isDemo : Bool
deriving DecidableEq

/-- Per-call chat options `{conversationId, useRag, model}`; absent fields
are `none` (the demo path treats an absent `useRag` as falsy, the real path
defaults it to `true`). -/
structure ChatOptions where
  conversationId : Option String
  useRag : Option Bool
  model : Option String
deriving DecidableEq

/-- Parsed backend response of `POST /chat/` as read by
`ApiService.sendMessage`; `sources` and `usage` may be absent. -/
structure ChatResponse where
  id : String
  conversation_id : String
  content : String
  model : String
  sources : Option (List SourceHit)
  usage : Option Usage
deriving DecidableEq

/-- Mutable state of `DemoApiService`: the canned-response cursor. -/
structure DemoState where
  responseIndex : Nat
deriving DecidableEq

/-- `DemoApiService.sendMessage` (demoApi.js lines 39-57): picks
`DEMO_RESPONSES[responseIndex % DEMO_RESPONSES.length]`, increments the
cursor, attaches one synthetic source exactly when `options.useRag` is
truthy, and builds the id from `Date.now()` (the `now` parameter). -/
def demoSendMessage (_message : String) (options : ChatOptions) (st : DemoState)
    (now : Nat) : Message × DemoState :=
  let response := DEMO_RESPONSES.getD (st.responseIndex % DEMO_RESPONSES.length) ""
  (⟨"demo-" ++ toString now,
    jsOr options.conversationId "demo-conversation",
    response,
    "demo-mode",
    if options.useRag = some true then
      [⟨"demo_doc.pdf", 0.95, "Sample relevant content..."⟩]
    else [],
    some ⟨50, 150⟩,
    true⟩,
   ⟨st.responseIndex + 1⟩)

/-- A model entry of `DEMO_MODELS`; `modified_at` is the load-time ISO
timestamp (`new Date().toISOString()`), passed in as `loadIso`. -/
structure ModelInfo where
  name : String
  size : Nat
  modified_at : String
deriving DecidableEq

/-- The fixed `DEMO_MODELS` list of demoApi.js. -/
def DEMO_MODELS (loadIso : String) : List ModelInfo :=
  [ ⟨"deepseek-r1:latest", 5200000000, loadIso⟩,
    ⟨"gemma2:9b", 5400000000, loadIso⟩,
    ⟨"llama3.2:latest", 4700000000, loadIso⟩,
    ⟨"nomic-embed-text:latest", 274000000, loadIso⟩ ]

/-- Response shape of `GET /models/` and `DemoApiService.getModels`. -/
structure ModelsResponse where
  models : List ModelInfo
  current_model : String
deriving DecidableEq

/-- `DemoApiService.getModels` (demoApi.js lines 59-65): the fixed model list
with the fixed default `current_model`. -/
def demoGetModels (loadIso : String) : ModelsResponse :=
  ⟨DEMO_MODELS loadIso, "deepseek-r1:latest"⟩

/-- A document entry of `DEMO_DOCUMENTS`. -/
structure DocInfo where
  id : String
  filename : String
  chunk_count : Nat
  created_at : String
deriving DecidableEq

/-- The fixed `DEMO_DOCUMENTS` list of demoApi.js. -/
def DEMO_DOCUMENTS (loadIso : String) : List DocInfo :=
  [ ⟨"1", "project_documentation.pdf", 45, loadIso⟩,
    ⟨"2", "api_reference.md", 23, loadIso⟩,
    ⟨"3", "user_guide.docx", 67, loadIso⟩ ]

/-- Response shape of `GET /rag/documents` and `DemoApiService.getDocuments`. -/
structure DocumentsResponse where
  documents : List DocInfo
  total : Nat
deriving DecidableEq

/-- `DemoApiService.getDocuments` (demoApi.js lines 67-73). -/
def demoGetDocuments (loadIso : String) : DocumentsResponse :=
  ⟨DEMO_DOCUMENTS loadIso, (DEMO_DOCUMENTS loadIso).length⟩

/-- One `{name, status}` entry of the demo health payload. -/
structure ServiceStatus where
  name : String
  status : String
deriving DecidableEq

/-- Health payload as consumed by the hooks; only `status` is required, the
remaining fields may be absent on real backends. -/
structure HealthResponse where
  status : String
  version : Option String := none
  services : List ServiceStatus := []
  message : Option String := none
deriving DecidableEq

/-- `DemoApiService.checkHealth` (demoApi.js lines 91-102). -/
def demoCheckHealth : HealthResponse :=
  ⟨"demo", some "2.0.0-demo",
   [⟨"frontend", "healthy"⟩, ⟨"demo-mode", "active"⟩],
   some "Running in demo mode - connect backend for full functionality"⟩

/-- Mutable state of an `ApiService` instance: the base URL, the sticky
demo-mode flag `isDemoMode` (the spec's `usingSimulatedBackend`), and the
demo responder it owns. -/
structure ApiState where
  baseUrl : String
  isDemoMode : Bool
  demo : DemoState
deriving DecidableEq

/-- A freshly constructed `ApiService` (api.js constructor): demo mode off,
demo cursor at 0. -/
def ApiState.init (baseUrl : String) : ApiState := ⟨baseUrl, false, ⟨0⟩⟩

/-- Environment of one `ApiService.sendMessage` call: the result of the
pre-flight `checkBackendAvailable` probe, and the settled outcome the
`request('/chat/', ...)` call would have. -/
structure SendEnv where
  reachable : Bool
  transport : Except ApiError ChatResponse

/-- `ApiService.sendMessage` (api.js lines 81-120). Returns the message, the
new facade state, and whether a real `request` call was issued.
If the sticky flag is set (the probe is then short-circuited) or the probe
fails, it sets the flag and delegates to the demo responder; otherwise it
issues the real request, mapping a success to a message with
`sources: response.sources || []`, and on any error sets the flag and
retries against the demo responder. -/
def sendMessage (st : ApiState) (message : String) (options : ChatOptions)
    (env : SendEnv) (now : Nat) : Message × ApiState × Bool :=
  if st.isDemoMode || !env.reachable then
    let (m, d) := demoSendMessage message options st.demo now
    (m, ⟨st.baseUrl, true, d⟩, false)
  else
    match env.transport with
    | .ok r =>
        (⟨r.id, r.conversation_id, r.content, r.model, r.sources.getD [], r.usage, false⟩,
         st, true)
    | .error _ =>
        let (m, d) := demoSendMessage message options st.demo now
        (m, ⟨st.baseUrl, true, d⟩, true)

/-- `ApiService.getDocuments` (api.js lines 245-255): demo short-circuit,
else real request with latch-and-fallback on error. -/
def getDocuments (st : ApiState) (env : Except ApiError DocumentsResponse)
    (loadIso : String) : Except ApiError DocumentsResponse × ApiState × Bool :=
  if st.isDemoMode then (.ok (demoGetDocuments loadIso), st, false)
  else
    match env with
    | .ok r => (.ok r, st, true)
    | .error _ => (.ok (demoGetDocuments loadIso), ⟨st.baseUrl, true, st.demo⟩, true)

/-- `ApiService.listModels` (api.js lines 271-281): demo short-circuit, else
real request with latch-and-fallback on error. -/
def listModels (st : ApiState) (env : Except ApiError ModelsResponse)
    (loadIso : String) : Except ApiError ModelsResponse × ApiState × Bool :=
  if st.isDemoMode then (.ok (demoGetModels loadIso), st, false)
  else
    match env with
    | .ok r => (.ok r, st, true)
    | .error _ => (.ok (demoGetModels loadIso), ⟨st.baseUrl, true, st.demo⟩, true)

/-- `ApiService.healthCheck` (api.js lines 301-311): demo short-circuit, else
real request with latch-and-fallback on error. -/
def healthCheck (st : ApiState) (env : Except ApiError HealthResponse) :
    Except ApiError HealthResponse × ApiState × Bool :=
  if st.isDemoMode then (.ok demoCheckHealth, st, false)
  else
    match env with
    | .ok r => (.ok r, st, true)
    | .error _ => (.ok demoCheckHealth, ⟨st.baseUrl, true, st.demo⟩, true)

/-- Parsed backend response of `POST /rag/ingest/upload` as read by the
documents hook (`response.chunks_created`; the field may be absent). -/
structure UploadResponse where
  chunks_created : Option Nat
deriving DecidableEq

/-- `ApiService.uploadDocument` (api.js lines 217-229): builds the form data
and returns `this.request('/rag/ingest/upload', ...)` directly — no demo-mode
check, no latch, state untouched, and a real request is always issued. -/
def uploadDocument (st : ApiState) (env : Except ApiError UploadResponse) :
    Except ApiError UploadResponse × ApiState × Bool :=
  (env, st, true)

/-- `ApiService.search` (api.js lines 231-243): returns
`this.request('/rag/search', ...)` directly — no demo-mode check, no latch,
state untouched, and a real request is always issued. -/
def search {α : Type} (st : ApiState) (env : Except ApiError α) :
    Except ApiError α × ApiState × Bool :=
  (env, st, true)

/-- `ApiService.switchModel` (api.js lines 283-288): returns
`this.request('/models/switch', ...)` directly — no demo-mode check, no
latch, state untouched, and a real request is always issued. -/
def switchModel {α : Type} (st : ApiState) (_modelName : String)
    (env : Except ApiError α) : Except ApiError α × ApiState × Bool :=
  (env, st, true)

/-- Splitting a character list at every occurrence of `c`; the character-list
semantics of JS `chunk.split(c)` (and of `String.splitOn` for a one-character
separator). `split` of the empty string is one empty field. -/
def splitOnChar (c : Char) : List Char → List (List Char)
  | [] => [[]]
  | x :: xs =>
      if x = c then [] :: splitOnChar c xs
      else
        match splitOnChar c xs with
        | [] => [[x]]
        | y :: ys => (x :: y) :: ys

/-- `chunk.split('\n')` from `ApiService.streamMessage`. -/
def splitLines (chunk : String) : List String :=
  (splitOnChar (Char.ofNat 10) chunk.data).map String.mk

/-- `line.startsWith('data: ')` and `line.slice(6)` combined: the payload of
a data line, if the line is one. The prefix is ASCII, so character-list
`take`/`drop` agrees with the JS code-unit slicing. -/
def lineData (line : String) : Option String :=
  if line.data.take 6 = "data: ".data then some (String.mk (line.data.drop 6))
  else none

/-- The inner `for (const line of lines)` loop of `ApiService.streamMessage`
(api.js lines 160-170), threading `fullContent` and the list of tokens
delivered to `onToken`; the Boolean result records whether a `[DONE]` line
terminated the stream (early `return` in the source). -/
def procLines : String → List String → List String → String × List String × Bool
  | fullContent, tokens, [] => (fullContent, tokens, false)
  | fullContent, tokens, l :: ls =>
      match lineData l with
      | none => procLines fullContent tokens ls
      | some d =>
          if d = "[DONE]" then (fullContent, tokens, true)
          else procLines (fullContent ++ d) (tokens ++ [d]) ls

/-- Observable callback activity of one streaming exchange: every argument
passed to `onToken` in order, and every argument passed to `onComplete`. -/
structure StreamResult where
  tokens : List String
  completions : List String
deriving DecidableEq

/-- The read loop of `ApiService.streamMessage` (api.js lines 149-171) over
the successive decoded chunks: each chunk is split into lines and processed;
a `[DONE]` line calls `onComplete(fullContent)` and returns, and exhaustion
of the stream (`done`) also calls `onComplete(fullContent)` once. -/
def streamChunks : String → List String → List String → StreamResult
  | fullContent, tokens, [] => ⟨tokens, [fullContent]⟩
  | fullContent, tokens, c :: cs =>
      match procLines fullContent tokens (splitLines c) with
      | (fc, tks, true) => ⟨tks, [fc]⟩
      | (fc, tks, false) => streamChunks fc tks cs

/-- `ApiService.streamMessage` (api.js lines 122-176): a failure of the
initial `request('/chat/stream', ...)` surfaces via `onError` (no tokens, no
completion); on success the chunk loop runs from an empty `fullContent`. -/
def streamMessage (env : Except ApiError (List String)) :
    Except ApiError StreamResult :=
  match env with
  | .error e => .error e
  | .ok chunks => .ok (streamChunks "" [] chunks)

/-- State of the `useHealthCheck` hook: advisory `status`, `lastCheck`
timestamp and last error message. -/
structure HealthHookState where
  status : String
  lastCheck : Option Nat
  error : Option String
deriving DecidableEq

/-- Initial `useHealthCheck` state. -/
def initialHealthHook : HealthHookState := ⟨"unknown", none, none⟩

/-- `checkHealth` of the `useHealthCheck` hook (hooks.js lines 70-80): calls
`api.healthCheck()`; on resolution stores the payload status and clears the
error, on rejection stores status `"unhealthy"` and the error message; in
both cases stamps `lastCheck`. The facade state is threaded because
`api.healthCheck` owns the sticky flag. -/
def checkHealth (_hook : HealthHookState) (st : ApiState)
    (env : Except ApiError HealthResponse) (now : Nat) :
    HealthHookState × ApiState :=
  match healthCheck st env with
  | (.ok r, st2, _) => (⟨r.status, some now, none⟩, st2)
  | (.error e, st2, _) => (⟨"unhealthy", some now, some e.message⟩, st2)

/-- A `DocumentRecord` as built by the `useDocuments` hook (hooks.js lines
296-303): `id` from `Date.now().toString()`, name and size from the file,
`chunksCreated` from the response, status `"indexed"`. -/
structure DocRecord where
  id : String
  name : String
  size : Nat
  chunksCreated : Option Nat
  uploadedAt : Nat
  status : String
deriving DecidableEq

/-- Persistent state of the `useDocuments` hook that upload operations
touch: the document collection and the last error. (The transient
`isUploading`/`uploadProgress` flags are reset by the time an upload
settles and are not modelled.) -/
structure DocsHookState where
  documents : List DocRecord
  error : Option ApiError
deriving DecidableEq

/-- An uploaded file's `name` and `size`. -/
structure FileInfo where
  name : String
  size : Nat
deriving DecidableEq

/-- `uploadDocument` of the `useDocuments` hook (hooks.js lines 288-314):
clears the error, awaits `api.uploadDocument(file)` (which passes the
Transport outcome `env` through unchanged), appends an `"indexed"` record on
success, and on failure records the error and rethrows. -/
def hookUploadDocument (hs : DocsHookState) (file : FileInfo)
    (env : Except ApiError UploadResponse) (now : Nat) :
    Except ApiError UploadResponse × DocsHookState :=
  match env with
  | .ok r =>
      (.ok r,
       ⟨hs.documents ++ [⟨toString now, file.name, file.size, r.chunks_created, now, "indexed"⟩],
        none⟩)
  | .error e => (.error e, ⟨hs.documents, some e⟩)

/-- One entry of the per-file result list of `uploadMultiple`. -/
structure FileResult where
  file : String
  success : Bool
deriving DecidableEq

/-- `uploadMultiple` of the `useDocuments` hook (hooks.js lines 316-327):
sequentially uploads each file, pushing a success entry when the upload
resolves and a failure entry when it throws, never aborting the batch. Each
file comes bundled with its Transport outcome and its `Date.now()` value. -/
def uploadMultiple : DocsHookState →
    List (FileInfo × Except ApiError UploadResponse × Nat) →
    List FileResult × DocsHookState
  | hs, [] => ([], hs)
  | hs, (f, env, now) :: rest =>
      match hookUploadDocument hs f env now with
      | (.ok _, hs2) =>
          let r := uploadMultiple hs2 rest
          (⟨f.name, true⟩ :: r.1, r.2)
      | (.error _, hs2) =>
          let r := uploadMultiple hs2 rest
          (⟨f.name, false⟩ :: r.1, r.2)

/-! Helper lemmas shared by the claim theorems. -/

lemma join_append_singleton (l : List String) (d : String) :
    String.join (l ++ [d]) = String.join l ++ d := by
  simp [String.join, List.foldl_append]

lemma procLines_join : ∀ (ls : List String) (fc : String) (tks : List String),
    fc = String.join tks →
    (procLines fc tks ls).1 = String.join (procLines fc tks ls).2.1 := by
  intro ls
  induction ls with
  | nil => intro fc tks h; simpa [procLines] using h
  | cons l ls ih =>
    intro fc tks h
    cases hld : lineData l with
    | none =>
      simpa [procLines, hld] using ih fc tks h
    | some d =>
      by_cases hd : d = "[DONE]"
      · simpa [procLines, hld, hd] using h
      · have h2 : fc ++ d = String.join (tks ++ [d]) := by
          rw [join_append_singleton, h]
        simpa [procLines, hld, hd] using ih (fc ++ d) (tks ++ [d]) h2

lemma streamChunks_join : ∀ (cs : List String) (fc : String) (tks : List String),
    fc = String.join tks →
    (streamChunks fc tks cs).completions
      = [String.join (streamChunks fc tks cs).tokens] := by
  intro cs
  induction cs with
  | nil => intro fc tks h; simp [streamChunks, h]
  | cons c cs ih =>
    intro fc tks h
    have hp := procLines_join (splitLines c) fc tks h
    rcases hpe : procLines fc tks (splitLines c) with ⟨fc2, tks2, b⟩
    rw [hpe] at hp
    simp only at hp
    cases b with
    | false =>
      simpa [streamChunks, hpe] using ih fc2 tks2 hp
    | true =>
      simp [streamChunks, hpe, hp]

/-- C3: in every streaming chat exchange the tokens delivered to `onToken`,
concatenated in delivery order, are exactly the string passed to
`onComplete`, and `onComplete` fires exactly once on a successfully
terminated stream; in particular the chunks carrying `"Hel"`, `"lo"` and the
`[DONE]` terminator invoke `onComplete` with `"Hello"` exactly once. -/
theorem stream_tokens_concat :
    (∀ chunks : List String,
      (streamChunks "" [] chunks).completions
        = [String.join (streamChunks "" [] chunks).tokens]) ∧
    streamChunks "" [] ["data: Hel\n", "data: lo\n", "data: [DONE]\n"]
      = ⟨["Hel", "lo"], ["Hello"]⟩ := by
  constructor
  · intro chunks
    exact streamChunks_join chunks "" [] rfl
  · decide

/-- C7: `ApiService.request` maps every non-2xx response to an `ApiError`
carrying the response status, whose message is pinned in every case: when
the body parses with a truthy `message` field the error message IS that
body message, and when it does not (parse failure, absent field, or empty
string) the error message IS the generic `"HTTP <code>"` string; and it
maps every network-level `fetch` failure to an `ApiError` with status 0 and
code `NETWORK_ERROR`. -/
theorem request_error_taxonomy {α : Type} (status : Nat)
    (body : Except String (ErrBody × α)) (m : String) (h : respOk status = false) :
    (∃ e, request (.resp status body) = .error e ∧ e.status = status ∧
       (∀ eb pay s, body = .ok (eb, pay) → eb.message = some s → s ≠ "" →
          e.message = s) ∧
       ((∀ eb pay s, body = .ok (eb, pay) → eb.message = some s → s = "") →
          e.message = "HTTP " ++ toString status)) ∧
    (∃ e, request (FetchOutcome.fetchThrow m : FetchOutcome α) = .error e ∧
       e.status = 0 ∧ e.code = some "NETWORK_ERROR") := by
  constructor
  · cases body with
    | ok v =>
      obtain ⟨eb, pay⟩ := v
      cases heb : eb.message with
      | none =>
        refine ⟨⟨"HTTP " ++ toString status, status, eb.code⟩, ?_, rfl, ?_, ?_⟩
        · simp [request, requestInner, h, jsOr, heb]
        · intro eb2 pay2 s hbe hm _
          simp only [Except.ok.injEq, Prod.mk.injEq] at hbe
          obtain ⟨h1, _⟩ := hbe
          subst h1
          rw [heb] at hm
          exact Option.noConfusion hm
        · intro _
          rfl
      | some s0 =>
        by_cases hs0 : s0 = ""
        · refine ⟨⟨"HTTP " ++ toString status, status, eb.code⟩, ?_, rfl, ?_, ?_⟩
          · simp [request, requestInner, h, jsOr, heb, hs0]
          · intro eb2 pay2 s hbe hm hs
            simp only [Except.ok.injEq, Prod.mk.injEq] at hbe
            obtain ⟨h1, _⟩ := hbe
            subst h1
            rw [heb] at hm
            injection hm with h3
            exact absurd (h3 ▸ hs0) hs
          · intro _
            rfl
        · refine ⟨⟨s0, status, eb.code⟩, ?_, rfl, ?_, ?_⟩
          · simp [request, requestInner, h, jsOr, heb, hs0]
          · intro eb2 pay2 s hbe hm _
            simp only [Except.ok.injEq, Prod.mk.injEq] at hbe
            obtain ⟨h1, _⟩ := hbe
            subst h1
            rw [heb] at hm
            exact Option.some.inj hm
          · intro hall
            exact absurd (hall eb pay s0 rfl heb) hs0
    | error pm =>
      refine ⟨⟨"HTTP " ++ toString status, status, none⟩, ?_, rfl, ?_, ?_⟩
      · simp [request, requestInner, h, jsOr]
      · intro eb2 pay2 s hbe _ _
        exact Except.noConfusion hbe
      · intro _
        rfl
  · refine ⟨⟨if m = "" then "Network error" else m, 0, some "NETWORK_ERROR"⟩,
      ?_, rfl, rfl⟩
    simp [request, requestInner]

/-- Witness for C7 at a concrete non-2xx response whose body carries the
truthy message `"nope"` (so the pinned error message is `"nope"`, obtained
by discharging the body-message implication at concrete arguments), and a
concrete network failure. -/
theorem request_error_taxonomy_witness :
    respOk 404 = false ∧
    (∃ e, request (.resp 404 (.ok (⟨some "nope", some "E"⟩, ())) :
          FetchOutcome Unit) = .error e ∧ e.status = 404 ∧ e.message = "nope") ∧
    (∃ e, request (FetchOutcome.fetchThrow "refused" : FetchOutcome Unit)
        = .error e ∧ e.status = 0 ∧ e.code = some "NETWORK_ERROR") := by
  refine ⟨by decide, ?_, ?_⟩
  · obtain ⟨⟨e, he, hst, hmsg, _⟩, _⟩ :=
      request_error_taxonomy 404
        (.ok (⟨some "nope", some "E"⟩, ()) : Except String (ErrBody × Unit))
        "refused" (by decide)
    exact ⟨e, he, hst, hmsg ⟨some "nope", some "E"⟩ () "nope" rfl rfl (by decide)⟩
  · obtain ⟨_, h2⟩ :=
      request_error_taxonomy 404
        (.ok (⟨some "nope", some "E"⟩, ()) : Except String (ErrBody × Unit))
        "refused" (by decide)
    exact h2

/-- C10: every exception arising inside `ApiService.request` propagates to
the caller as an `ApiError`: one thrown as an `ApiError` is rethrown
unchanged, and any other exception is re-wrapped into an `ApiError` with
status 0 and code `NETWORK_ERROR`. -/
theorem request_wraps_all_errors {α : Type} (env : FetchOutcome α)
    (ex : JsException) (h : requestInner env = .error ex) :
    ∃ e : ApiError, request env = .error e ∧
      (∀ e0, ex = .api e0 → e = e0) ∧
      (∀ m2, ex = .raw m2 → e.status = 0 ∧ e.code = some "NETWORK_ERROR") := by
  cases ex with
  | raw m =>
    refine ⟨⟨if m = "" then "Network error" else m, 0, some "NETWORK_ERROR"⟩,
      ?_, ?_, ?_⟩
    · simp [request, h]
    · intro e0 he; exact (JsException.noConfusion he)
    · intro m2 _; exact ⟨rfl, rfl⟩
  | api e =>
    refine ⟨e, ?_, ?_, ?_⟩
    · simp [request, h]
    · intro e0 he; cases he; rfl
    · intro m2 hm; exact (JsException.noConfusion hm)

/-- Witness for C10 at a concrete raw network exception. -/
theorem request_wraps_all_errors_witness :
    requestInner (FetchOutcome.fetchThrow "boom" : FetchOutcome Unit)
        = .error (.raw "boom") ∧
    (∃ e : ApiError,
      request (FetchOutcome.fetchThrow "boom" : FetchOutcome Unit) = .error e ∧
      (∀ e0, (JsException.raw "boom") = .api e0 → e = e0) ∧
      (∀ m2, (JsException.raw "boom") = .raw m2 →
        e.status = 0 ∧ e.code = some "NETWORK_ERROR")) :=
  ⟨rfl, request_wraps_all_errors (FetchOutcome.fetchThrow "boom") (.raw "boom") rfl⟩

lemma demoResponse_getD_mem (i : Nat) :
    DEMO_RESPONSES.getD (i % DEMO_RESPONSES.length) "" ∈ DEMO_RESPONSES := by
  have h : i % DEMO_RESPONSES.length < DEMO_RESPONSES.length :=
    Nat.mod_lt i (by decide)
  rw [List.getD_eq_getElem DEMO_RESPONSES "" h]
  exact List.getElem_mem h

lemma demoResponses_ne_empty : ∀ s ∈ DEMO_RESPONSES, s ≠ "" := by decide

lemma demoSendMessage_content (msg : String) (opts : ChatOptions)
    (st : DemoState) (now : Nat) :
    (demoSendMessage msg opts st now).1.content
      = DEMO_RESPONSES.getD (st.responseIndex % DEMO_RESPONSES.length) "" := rfl

lemma demoSendMessage_index (msg : String) (opts : ChatOptions)
    (st : DemoState) (now : Nat) :
    (demoSendMessage msg opts st now).2.responseIndex = st.responseIndex + 1 := rfl

lemma demoSendMessage_sources (msg : String) (opts : ChatOptions)
    (st : DemoState) (now : Nat) :
    (demoSendMessage msg opts st now).1.sources
      = if opts.useRag = some true then
          [⟨"demo_doc.pdf", 0.95, "Sample relevant content..."⟩]
        else [] := rfl

lemma sendMessage_fallback (st : ApiState) (msg : String) (opts : ChatOptions)
    (env : SendEnv) (now : Nat)
    (h : st.isDemoMode = true ∨ env.reachable = false ∨
         exceptErr env.transport = true) :
    (sendMessage st msg opts env now).1 = (demoSendMessage msg opts st.demo now).1 ∧
    (sendMessage st msg opts env now).2.1
      = ⟨st.baseUrl, true, (demoSendMessage msg opts st.demo now).2⟩ := by
  cases hd : st.isDemoMode with
  | true => simp [sendMessage, hd, demoSendMessage]
  | false =>
    cases hr : env.reachable with
    | false => simp [sendMessage, hd, hr, demoSendMessage]
    | true =>
      cases ht : env.transport with
      | ok r =>
        rw [hd, hr, ht] at h
        simp [exceptErr] at h
      | error e => simp [sendMessage, hd, hr, ht, demoSendMessage]

lemma sendMessage_real (st : ApiState) (msg : String) (opts : ChatOptions)
    (env : SendEnv) (now : Nat) (r : ChatResponse)
    (hd : st.isDemoMode = false) (hr : env.reachable = true)
    (ht : env.transport = .ok r) :
    sendMessage st msg opts env now =
      (⟨r.id, r.conversation_id, r.content, r.model, r.sources.getD [],
        r.usage, false⟩, st, true) := by
  simp [sendMessage, hd, hr, ht]

/-- Outcome of a network-level failure, as produced by `ApiService.request`. -/
def netErr : ApiError := ⟨"Failed to fetch", 0, some "NETWORK_ERROR"⟩

/-- A well-formed backend chat response whose `content` is empty. -/
def emptyContentResp : ChatResponse :=
  ⟨"id-1", "conv-1", "", "llama3.2:latest", none, none⟩

/-- Counterexample to C1 as stated: with the backend reachable and the real
transport call succeeding with an empty `content`, `sendMessage` resolves
with a Message whose `content` is empty. -/
theorem sendMessage_empty_content_cex :
    (ApiState.init "http://localhost:8000").isDemoMode = false ∧
    (sendMessage (ApiState.init "http://localhost:8000") "hi"
        ⟨none, some true, none⟩ ⟨true, .ok emptyContentResp⟩ 0).1.content = "" :=
  ⟨rfl, rfl⟩

/-- C1 (amended): `sendMessage` never rejects; whenever the sticky flag is
set, the pre-flight probe fails, or the Transport call errors, it is served
by the demo responder, whose content is one of the canned non-empty strings,
and the flag is set; on a successful real call the content is exactly the
backend's content (which the facade does not check for non-emptiness). -/
theorem sendMessage_always_resolves_amended (st : ApiState) (msg : String)
    (opts : ChatOptions) (env : SendEnv) (now : Nat) :
    ((st.isDemoMode = true ∨ env.reachable = false ∨
        exceptErr env.transport = true) →
      (sendMessage st msg opts env now).1.isDemo = true ∧
      (sendMessage st msg opts env now).1.content ∈ DEMO_RESPONSES ∧
      (sendMessage st msg opts env now).1.content ≠ "" ∧
      (sendMessage st msg opts env now).2.1.isDemoMode = true) ∧
    (∀ r, st.isDemoMode = false → env.reachable = true →
        env.transport = .ok r →
      (sendMessage st msg opts env now).1.content = r.content ∧
      (sendMessage st msg opts env now).2.1 = st) := by
  constructor
  · intro h
    obtain ⟨h1, h2⟩ := sendMessage_fallback st msg opts env now h
    rw [h1, h2]
    refine ⟨rfl, ?_, ?_, rfl⟩
    · rw [demoSendMessage_content]
      exact demoResponse_getD_mem _
    · rw [demoSendMessage_content]
      exact demoResponses_ne_empty _ (demoResponse_getD_mem _)
  · intro r hd hr ht
    rw [sendMessage_real st msg opts env now r hd hr ht]
    exact ⟨rfl, rfl⟩

/-- Witness for the amended C1 on the fallback path at a concrete input. -/
theorem sendMessage_always_resolves_amended_witness :
    (sendMessage (ApiState.init "u") "hi" ⟨none, none, none⟩
        ⟨false, .error netErr⟩ 7).1.isDemo = true ∧
    (sendMessage (ApiState.init "u") "hi" ⟨none, none, none⟩
        ⟨false, .error netErr⟩ 7).1.content ∈ DEMO_RESPONSES ∧
    (sendMessage (ApiState.init "u") "hi" ⟨none, none, none⟩
        ⟨false, .error netErr⟩ 7).1.content ≠ "" ∧
    (sendMessage (ApiState.init "u") "hi" ⟨none, none, none⟩
        ⟨false, .error netErr⟩ 7).2.1.isDemoMode = true :=
  (sendMessage_always_resolves_amended (ApiState.init "u") "hi"
      ⟨none, none, none⟩ ⟨false, .error netErr⟩ 7).1 (Or.inr (Or.inl rfl))

/-- A backend chat response that carries one retrieval hit. -/
def hitResp : ChatResponse :=
  ⟨"id-2", "conv-2", "answer", "llama3.2:latest",
   some [⟨"doc.pdf", 0.5, "snip"⟩], none⟩

/-- Counterexample to C6 as stated: with `useRag = false` and the backend
reachable, a real response that carries a hit yields a Message whose
`sources` list is that hit — not empty. -/
theorem sources_not_empty_when_no_rag_cex :
    (sendMessage (ApiState.init "u") "hi" ⟨none, some false, none⟩
        ⟨true, .ok hitResp⟩ 0).1.sources = [⟨"doc.pdf", 0.5, "snip"⟩] ∧
    (sendMessage (ApiState.init "u") "hi" ⟨none, some false, none⟩
        ⟨true, .ok hitResp⟩ 0).1.sources ≠ [] :=
  ⟨rfl, by decide⟩

/-- C6 (amended): when the call is served by the demo responder,
`useRag = true` yields exactly the one synthetic hit and any other `useRag`
yields an empty `sources` list; on a successful real call `sources` has
exactly the length of the hit list the backend returned (empty when the
field is absent), regardless of `useRag`. -/
theorem rag_sources_amended (st : ApiState) (msg : String) (opts : ChatOptions)
    (env : SendEnv) (now : Nat) :
    ((st.isDemoMode = true ∨ env.reachable = false ∨
        exceptErr env.transport = true) →
      ((opts.useRag = some true →
          (sendMessage st msg opts env now).1.sources.length = 1) ∧
       (opts.useRag ≠ some true →
          (sendMessage st msg opts env now).1.sources = []))) ∧
    (∀ r, st.isDemoMode = false → env.reachable = true →
        env.transport = .ok r →
      ((∀ hits, r.sources = some hits →
          (sendMessage st msg opts env now).1.sources.length = hits.length) ∧
       (r.sources = none →
          (sendMessage st msg opts env now).1.sources = []))) := by
  constructor
  · intro h
    obtain ⟨h1, _⟩ := sendMessage_fallback st msg opts env now h
    rw [h1]
    constructor
    · intro hu
      rw [demoSendMessage_sources, if_pos hu]
      rfl
    · intro hu
      rw [demoSendMessage_sources, if_neg hu]
  · intro r hd hr ht
    rw [sendMessage_real st msg opts env now r hd hr ht]
    constructor
    · intro hits hh
      simp [hh]
    · intro hh
      simp [hh]

/-- Witness for the amended C6 on the demo path with `useRag = true`. -/
theorem rag_sources_amended_witness :
    (sendMessage (ApiState.init "u") "hi" ⟨none, some true, none⟩
        ⟨false, .error netErr⟩ 3).1.sources.length = 1 :=
  ((rag_sources_amended (ApiState.init "u") "hi" ⟨none, some true, none⟩
      ⟨false, .error netErr⟩ 3).1 (Or.inr (Or.inl rfl))).1 rfl

/-- The demo cursor after the n-th simulated chat call starting from a fresh
`DemoApiService`. -/
def demoCallN (msg : String) (opts : ChatOptions) (now : Nat) : Nat → DemoState
  | 0 => ⟨0⟩
  | n + 1 => (demoSendMessage msg opts (demoCallN msg opts now n) now).2

lemma demoCallN_index (msg : String) (opts : ChatOptions) (now : Nat) :
    ∀ n, (demoCallN msg opts now n).responseIndex = n := by
  intro n
  induction n with
  | zero => rfl
  | succ n ih =>
    show (demoSendMessage msg opts (demoCallN msg opts now n) now).2.responseIndex
        = n + 1
    rw [demoSendMessage_index, ih]

/-- C8: the demo responder cycles deterministically through the canned list —
after n simulated chat calls the cursor is exactly n, and the n-th call
returns the (n mod 5)-th canned string; and a `sendMessage` whose pre-flight
probe fails resolves with one of the canned strings and sets the sticky
flag. -/
theorem demo_cycles (msg : String) (opts : ChatOptions) (now : Nat) (n : Nat)
    (st : ApiState) (env : SendEnv) (henv : env.reachable = false) :
    (demoCallN msg opts now n).responseIndex = n ∧
    (demoSendMessage msg opts (demoCallN msg opts now n) now).1.content
      = DEMO_RESPONSES.getD (n % 5) "" ∧
    (sendMessage st msg opts env now).1.content ∈ DEMO_RESPONSES ∧
    (sendMessage st msg opts env now).2.1.isDemoMode = true := by
  refine ⟨demoCallN_index msg opts now n, ?_, ?_, ?_⟩
  · rw [demoSendMessage_content, demoCallN_index]
    rfl
  · rw [(sendMessage_fallback st msg opts env now (Or.inr (Or.inl henv))).1,
      demoSendMessage_content]
    exact demoResponse_getD_mem _
  · rw [(sendMessage_fallback st msg opts env now (Or.inr (Or.inl henv))).2]

/-- Witness for C8 at n = 7 against an unreachable backend. -/
theorem demo_cycles_witness :
    (demoCallN "hi" ⟨none, none, none⟩ 0 7).responseIndex = 7 ∧
    (demoSendMessage "hi" ⟨none, none, none⟩
        (demoCallN "hi" ⟨none, none, none⟩ 0 7) 0).1.content
      = DEMO_RESPONSES.getD (7 % 5) "" ∧
    (sendMessage (ApiState.init "u") "hi" ⟨none, none, none⟩
        ⟨false, .error netErr⟩ 0).1.content ∈ DEMO_RESPONSES ∧
    (sendMessage (ApiState.init "u") "hi" ⟨none, none, none⟩
        ⟨false, .error netErr⟩ 0).2.1.isDemoMode = true :=
  demo_cycles "hi" ⟨none, none, none⟩ 0 7 (ApiState.init "u")
    ⟨false, .error netErr⟩ rfl

/-- A facade instance already latched into demo mode. -/
def demoLatchedState : ApiState := ⟨"http://localhost:8000", true, ⟨0⟩⟩

/-- Counterexample to C2 as stated: on a facade already latched into demo
mode, `search` still issues a real Transport request and propagates a
transport failure instead of being served by the demo responder. -/
theorem latch_not_universal_cex :
    demoLatchedState.isDemoMode = true ∧
    (search demoLatchedState (.error netErr : Except ApiError Unit)).2.2 = true ∧
    (search demoLatchedState (.error netErr : Except ApiError Unit)).1
      = .error netErr :=
  ⟨rfl, rfl, rfl⟩

/-- C2 (amended): once the sticky flag is set, `sendMessage`,
`getDocuments`, `listModels` and `healthCheck` are served by the demo
responder without issuing a Transport request and the flag stays set; but
`uploadDocument`, `search` and `switchModel` ignore the flag and always
issue a real Transport request. -/
theorem latch_amended {α β : Type} (st : ApiState) (h : st.isDemoMode = true)
    (msg : String) (opts : ChatOptions) (env : SendEnv) (now : Nat)
    (docsEnv : Except ApiError DocumentsResponse) (loadIso : String)
    (modelsEnv : Except ApiError ModelsResponse)
    (healthEnv : Except ApiError HealthResponse)
    (upEnv : Except ApiError UploadResponse)
    (searchEnv : Except ApiError α) (mname : String)
    (swEnv : Except ApiError β) :
    ((sendMessage st msg opts env now).2.2 = false ∧
     (sendMessage st msg opts env now).1.isDemo = true ∧
     (sendMessage st msg opts env now).2.1.isDemoMode = true) ∧
    getDocuments st docsEnv loadIso = (.ok (demoGetDocuments loadIso), st, false) ∧
    listModels st modelsEnv loadIso = (.ok (demoGetModels loadIso), st, false) ∧
    healthCheck st healthEnv = (.ok demoCheckHealth, st, false) ∧
    (uploadDocument st upEnv).2.2 = true ∧
    (search st searchEnv).2.2 = true ∧
    (switchModel st mname swEnv).2.2 = true := by
  refine ⟨⟨?_, ?_, ?_⟩, ?_, ?_, ?_, rfl, rfl, rfl⟩
  · simp [sendMessage, h, demoSendMessage]
  · simp [sendMessage, h, demoSendMessage]
  · simp [sendMessage, h, demoSendMessage]
  · simp [getDocuments, h]
  · simp [listModels, h]
  · simp [healthCheck, h]

/-- Witness for the amended C2 on a concrete latched facade. -/
theorem latch_amended_witness :
    ((sendMessage demoLatchedState "hi" ⟨none, none, none⟩
        ⟨true, .ok emptyContentResp⟩ 0).2.2 = false ∧
     (sendMessage demoLatchedState "hi" ⟨none, none, none⟩
        ⟨true, .ok emptyContentResp⟩ 0).1.isDemo = true ∧
     (sendMessage demoLatchedState "hi" ⟨none, none, none⟩
        ⟨true, .ok emptyContentResp⟩ 0).2.1.isDemoMode = true) ∧
    getDocuments demoLatchedState (.error netErr) "t"
      = (.ok (demoGetDocuments "t"), demoLatchedState, false) ∧
    listModels demoLatchedState (.error netErr) "t"
      = (.ok (demoGetModels "t"), demoLatchedState, false) ∧
    healthCheck demoLatchedState (.error netErr)
      = (.ok demoCheckHealth, demoLatchedState, false) ∧
    (uploadDocument demoLatchedState (.ok ⟨some 3⟩)).2.2 = true ∧
    (search demoLatchedState (.ok () : Except ApiError Unit)).2.2 = true ∧
    (switchModel demoLatchedState "gemma2:9b"
        (.error netErr : Except ApiError Unit)).2.2 = true :=
  latch_amended demoLatchedState rfl "hi" ⟨none, none, none⟩
    ⟨true, .ok emptyContentResp⟩ 0 (.error netErr) "t" (.error netErr)
    (.error netErr) (.ok ⟨some 3⟩) (.ok ()) "gemma2:9b" (.error netErr)

/-- Counterexample to C4 as stated: running the health probe on a
not-yet-latched facade whose real health request fails sets the facade's
sticky demo-mode flag. -/
theorem healthCheck_flips_flag_cex :
    (ApiState.init "http://localhost:8000").isDemoMode = false ∧
    (checkHealth initialHealthHook (ApiState.init "http://localhost:8000")
        (.error netErr) 5).2.isDemoMode = true :=
  ⟨rfl, rfl⟩

/-- C4 (amended): the monitor writes only its advisory fields and stamps
`lastCheck`; the facade's base URL and demo cursor are untouched, and the
sticky flag after a probe equals its old value or-ed with "the real health
request failed" — so a successful probe, or one on an already-latched
facade, never changes the flag, while a failing probe on a live facade sets
it. -/
theorem healthCheck_frame_amended (hook : HealthHookState) (st : ApiState)
    (env : Except ApiError HealthResponse) (now : Nat) :
    (checkHealth hook st env now).2.baseUrl = st.baseUrl ∧
    (checkHealth hook st env now).2.demo = st.demo ∧
    (checkHealth hook st env now).2.isDemoMode
      = (st.isDemoMode || exceptErr env) ∧
    (checkHealth hook st env now).1.lastCheck = some now := by
  cases hd : st.isDemoMode <;> cases env <;>
    simp [checkHealth, healthCheck, hd, exceptErr]

/-- Counterexample to C5 as stated: `switchModel` on a latched facade whose
real request fails rejects instead of resolving, and it issued a real
Transport request. -/
theorem switchModel_rejects_in_demo_cex :
    demoLatchedState.isDemoMode = true ∧
    (switchModel demoLatchedState "gemma2:9b"
        (.error netErr : Except ApiError Unit)).1 = .error netErr ∧
    (switchModel demoLatchedState "gemma2:9b"
        (.error netErr : Except ApiError Unit)).2.2 = true :=
  ⟨rfl, rfl, rfl⟩

/-- C5 (amended): `switchModel` just issues the real Transport request and
resolves or rejects with it; it leaves the facade state unchanged, so a
subsequent `listModels` on a latched facade is still served by the demo
responder, whose `current_model` is the fixed default `deepseek-r1:latest`. -/
theorem switchModel_amended {α : Type} (st : ApiState) (mname : String)
    (env : Except ApiError α) (modelsEnv : Except ApiError ModelsResponse)
    (loadIso : String) (h : st.isDemoMode = true) :
    (switchModel st mname env).1 = env ∧
    (switchModel st mname env).2.1 = st ∧
    (listModels (switchModel st mname env).2.1 modelsEnv loadIso).1
      = .ok (demoGetModels loadIso) ∧
    (demoGetModels loadIso).current_model = "deepseek-r1:latest" := by
  refine ⟨rfl, rfl, ?_, rfl⟩
  simp [switchModel, listModels, h]

/-- Witness for the amended C5 on a concrete latched facade. -/
theorem switchModel_amended_witness :
    (switchModel demoLatchedState "gemma2:9b"
        (.error netErr : Except ApiError Unit)).1 = .error netErr ∧
    (switchModel demoLatchedState "gemma2:9b"
        (.error netErr : Except ApiError Unit)).2.1 = demoLatchedState ∧
    (listModels (switchModel demoLatchedState "gemma2:9b"
        (.error netErr : Except ApiError Unit)).2.1 (.error netErr) "t").1
      = .ok (demoGetModels "t") ∧
    (demoGetModels "t").current_model = "deepseek-r1:latest" :=
  switchModel_amended demoLatchedState "gemma2:9b" (.error netErr)
    (.error netErr) "t" rfl

lemma uploadMultiple_spec :
    ∀ (inputs : List (FileInfo × Except ApiError UploadResponse × Nat))
      (hs : DocsHookState),
      (uploadMultiple hs inputs).1.length = inputs.length ∧
      ((uploadMultiple hs inputs).1.filter (fun r => !r.success)).length
        = (inputs.filter (fun t => exceptErr t.2.1)).length ∧
      ∃ newDocs,
        (uploadMultiple hs inputs).2.documents = hs.documents ++ newDocs ∧
        newDocs.length + (inputs.filter (fun t => exceptErr t.2.1)).length
          = inputs.length ∧
        ∀ d ∈ newDocs, d.status = "indexed" := by
  intro inputs
  induction inputs with
  | nil =>
    intro hs
    exact ⟨rfl, rfl, [], by simp [uploadMultiple], by simp, by simp⟩
  | cons t rest ih =>
    obtain ⟨f, env, now⟩ := t
    intro hs
    cases env with
    | ok r =>
      obtain ⟨ih1, ih2, newDocs, ihd, ihl, ihs⟩ :=
        ih ⟨hs.documents ++
              [⟨toString now, f.name, f.size, r.chunks_created, now, "indexed"⟩],
            none⟩
      refine ⟨?_, ?_,
        ⟨⟨toString now, f.name, f.size, r.chunks_created, now, "indexed"⟩ ::
            newDocs, ?_, ?_, ?_⟩⟩
      · simp [uploadMultiple, hookUploadDocument, ih1]
      · simp [uploadMultiple, hookUploadDocument, exceptErr, ih2]
      · simp only [uploadMultiple, hookUploadDocument]
        rw [ihd]
        simp
      · simp [List.filter_cons, exceptErr] at ihl ⊢
        omega
      · intro d hd
        rcases List.mem_cons.mp hd with h1 | h2
        · rw [h1]
        · exact ihs d h2
    | error e =>
      obtain ⟨ih1, ih2, newDocs, ihd, ihl, ihs⟩ := ih ⟨hs.documents, some e⟩
      refine ⟨?_, ?_, ⟨newDocs, ?_, ?_, ?_⟩⟩
      · simp [uploadMultiple, hookUploadDocument, ih1]
      · simp [uploadMultiple, hookUploadDocument, exceptErr, ih2]
      · simp only [uploadMultiple, hookUploadDocument]
        exact ihd
      · simp [List.filter_cons, exceptErr] at ihl ⊢
        omega
      · exact ihs

/-- C9: a batch of uploads in which exactly one file's upload fails yields a
per-file result list covering every file with exactly one entry reported
failed, and the document collection gains exactly N − 1 records, all with
status `indexed`; the batch is neither aborted nor rolled back. -/
theorem uploadMultiple_isolation (hs : DocsHookState)
    (inputs : List (FileInfo × Except ApiError UploadResponse × Nat))
    (h : (inputs.filter (fun t => exceptErr t.2.1)).length = 1) :
    (uploadMultiple hs inputs).1.length = inputs.length ∧
    ((uploadMultiple hs inputs).1.filter (fun r => !r.success)).length = 1 ∧
    (uploadMultiple hs inputs).2.documents.length
      = hs.documents.length + (inputs.length - 1) ∧
    ∀ d ∈ (uploadMultiple hs inputs).2.documents.drop hs.documents.length,
      d.status = "indexed" := by
  obtain ⟨h1, h2, newDocs, hd, hl, hstat⟩ := uploadMultiple_spec inputs hs
  refine ⟨h1, ?_, ?_, ?_⟩
  · rw [h2, h]
  · rw [hd, List.length_append]
    omega
  · rw [hd, List.drop_left]
    exact hstat

/-- A three-file batch whose middle upload fails with a network error. -/
def demoBatch : List (FileInfo × Except ApiError UploadResponse × Nat) :=
  [(⟨"a.pdf", 10⟩, .ok ⟨some 3⟩, 1),
   (⟨"b.pdf", 20⟩, .error netErr, 2),
   (⟨"c.pdf", 30⟩, .ok ⟨none⟩, 3)]

/-- Witness for C9 on the concrete three-file batch. -/
theorem uploadMultiple_isolation_witness :
    (uploadMultiple ⟨[], none⟩ demoBatch).1.length = demoBatch.length ∧
    ((uploadMultiple ⟨[], none⟩ demoBatch).1.filter
        (fun r => !r.success)).length = 1 ∧
    (uploadMultiple ⟨[], none⟩ demoBatch).2.documents.length
      = (([] : List DocRecord)).length + (demoBatch.length - 1) ∧
    ∀ d ∈ (uploadMultiple ⟨[], none⟩ demoBatch).2.documents.drop
        (([] : List DocRecord)).length,
      d.status = "indexed" :=
  uploadMultiple_isolation ⟨[], none⟩ demoBatch (by decide)

end Allma
